import Mathlib

/-!
Verification development for the clusterwise linear model repository
(`cwlm/gmm_regressor.py`).  The Python module is shallowly embedded below:
matrices become functions over `Fin`, the two external sklearn collaborators
(the Gaussian-mixture density model and the ridge solver) become explicit
function parameters, and the Python runtime outcomes (normal return,
returning `None`, raised exceptions, the hypothetical process exit) become an
explicit result type.  Machine floats are modelled as exact rationals; none of
the properties below depend on rounding.
-/

/-- Runtime error outcomes.  `attributeError` models reading a never-assigned
attribute; `nameError` models evaluating the unimported name `sys` at the
`sys.exit` call sites; `indexError` models numpy indexing with too many
indices; `valueError` models the exception sklearn raises when `r2_score`
receives `None` as predictions.  `notFittedError` and `shapeMismatchError`
never arise from the embedded code; they exist so that the specification's
claimed error taxonomy can be stated and compared against the code. -/
inductive PyErr where
  | attributeError
  | nameError
  | indexError
  | valueError
  | externalError
  | notFittedError
  | shapeMismatchError
deriving DecidableEq, Repr

/-- Outcome of running a Python callable: a returned value, an explicit
`return None`, a raised exception, or a process exit (`sys.exit` reached with
`sys` in scope — never actually produced by this module, see `PyErr`). -/
inductive PyResult (α : Type) where
  | ok : α → PyResult α
  | retNone : PyResult α
  | err : PyErr → PyResult α
  | exitProc : PyResult α
deriving DecidableEq

/-- A real matrix with `n` rows and `d` columns. -/
abbrev Mat (n d : ℕ) : Type := Fin n → Fin d → ℚ

/-- A numpy value returned to the caller, tagged with its dimensionality:
`vec1` is a 1-D array of length `n`, `mat2` a 2-D array of shape `(n, t)`. -/
inductive NpVal where
  | vec1 : (n : ℕ) → (Fin n → ℚ) → NpVal
  | mat2 : (n t : ℕ) → Mat n t → NpVal

/-- Number of axes of a returned numpy value. -/
def NpVal.ndim : NpVal → ℕ
  | .vec1 _ _ => 1
  | .mat2 _ _ _ => 2

/-- The target argument `y` of `fit`: the source accepts a 1-D vector
(`t = 1` after the `y[:, np.newaxis]` reshape in `_check_data`) or a 2-D
matrix of shape `(n, t)`. -/
inductive YIn where
  | d1 : (n : ℕ) → (Fin n → ℚ) → YIn
  | d2 : (n t : ℕ) → Mat n t → YIn

/-- Number of samples of the target argument. -/
def YIn.nSamples : YIn → ℕ
  | .d1 n _ => n
  | .d2 n _ _ => n

/-- Number of target tasks after the `_check_data` reshape (a 1-D `y`
becomes a single-task column). -/
def YIn.nTasks : YIn → ℕ
  | .d1 _ _ => 1
  | .d2 _ t _ => t

/-- The target argument viewed as the 2-D matrix produced by `_check_data`. -/
def YIn.mat : (y : YIn) → Mat y.nSamples y.nTasks
  | .d1 _ v => fun i _ => v i
  | .d2 _ _ m => fun i j => m i j

/-- Row-wise `np.argmax`: index of the first maximal entry (numpy breaks ties
by the lowest index).  numpy raises on an empty axis; the junk value `0` at
`K = 0` is never relied on (the embedded program never takes an argmax over
zero columns along a reachable path). -/
def npArgmax : (K : ℕ) → (Fin K → ℚ) → ℕ
  | 0, _ => 0
  | K + 1, f =>
      ((List.finRange (K + 1)).foldl
        (fun b k => if f b < f k then k else b) ⟨0, Nat.succ_pos K⟩).val

/-- Constructor arguments of `sklearn.mixture.GaussianMixture` that the
source interacts with.  `covariance_type` records the value the mixture was
constructed with; sklearn's own default is `"full"`. -/
structure GMMParams where
  n_components : ℕ
  n_init : ℕ
  random_state : Option Int
  covariance_type : String
deriving DecidableEq, Repr

/-- Data the external mixture fit contributes: the learned mixture weights
and the `predict_proba` responsibility map (usable on any sample count once
the feature dimension `d` is fixed). -/
structure GMMFitResult (d K : ℕ) where
  weights_ : Fin K → ℚ
  predictProba : (n : ℕ) → Mat n d → Fin n → Fin K → ℚ

/-- A fitted `GaussianMixture` object as stored on the regressor: its
constructor parameters together with the fitted quantities. -/
structure GMMFitted (d K : ℕ) where
  params : GMMParams
  weights_ : Fin K → ℚ
  predictProba : (n : ℕ) → Mat n d → Fin n → Fin K → ℚ

/-- The external EM fit (`GaussianMixture.fit` followed by the uses the
source makes of the object).  It may fail with an exception, which the
source does not catch. -/
abbrev GmmExt : Type :=
  (p : GMMParams) → (n d : ℕ) → Mat n d → Except Unit (GMMFitResult d p.n_components)

/-- Output of `sklearn.linear_model.Ridge.fit`: per-task intercept and
coefficient rows. -/
structure RidgeResult (d t : ℕ) where
  intercept_ : Fin t → ℚ
  coef_ : Fin t → Fin d → ℚ

/-- The external weighted ridge solve.  Arguments: sample count, feature
count, task count, the L2 strength `alpha`, the design matrix, the targets
and the per-sample weights.  It may fail with an exception. -/
abbrev RidgeExt : Type :=
  (n d t : ℕ) → (alpha : ℚ) → Mat n d → Mat n t → (Fin n → ℚ) →
    Except Unit (RidgeResult d t)

/-- The floor added to the responsibilities before the ridge solve:
`10 * np.finfo(float64).eps` with `eps = 2 ^ (-52)`. -/
def weightEps : ℚ := 10 / 2 ^ 52

/-- The extended design matrix `X_ext = [1 | X]` (column of ones prepended,
line 37 of the source). -/
def xExt {n d : ℕ} (X : Mat n d) : Fin n → Fin (d + 1) → ℚ :=
  fun i => Fin.cases 1 (fun c => X i c)

/-- The per-component weight matrix assembled from a ridge result:
column 0 is the intercept, columns `1..d` are the coefficients
(lines 44-45 of the source). -/
def ridgeW {d t : ℕ} (s : RidgeResult d t) : Fin t → Fin (d + 1) → ℚ :=
  fun j => Fin.cases (s.intercept_ j) (fun c => s.coef_ j c)

/-- Result of `_estimate_regression_params_k`: the `(t, d+1)` weight matrix
for the component and the single precision scalar the source rebinds
`reg_precisions_k` to on line 50. -/
structure RegParamsK (d t : ℕ) where
  reg_weights_k : Fin t → Fin (d + 1) → ℚ
  reg_precisions_k : ℚ

/-- Default element used only to give `collectExcept` a total extraction. -/
def RegParamsK.dflt (d t : ℕ) : RegParamsK d t := ⟨fun _ _ => 0, 0⟩

/-- Embedding of `_estimate_regression_params_k` (lines 13-52): ridge solve
with sample weights `resp_k + eps`, then the precision
`n * weight_k / np.sum(resp_k[:, None] * (y - X_ext @ W.T) ** 2)` — note the
`np.sum` totals over samples AND tasks, yielding one scalar.  A ridge
exception propagates. -/
def estimate_regression_params_k (rext : RidgeExt) {n d t : ℕ} (X : Mat n d)
    (y : Mat n t) (resp_k : Fin n → ℚ) (alpha : ℚ) (weight_k : ℚ) :
    Except Unit (RegParamsK d t) :=
  match rext n d t alpha X y (fun i => resp_k i + weightEps) with
  | .error e => .error e
  | .ok s =>
      let W := ridgeW s
      let means : Fin n → Fin t → ℚ := fun i j => ∑ c, xExt X i c * W j c
      let errsq : Fin n → Fin t → ℚ := fun i j => (y i j - means i j) ^ 2
      .ok ⟨W, (n : ℚ) * weight_k / ∑ i, ∑ j, resp_k i * errsq i j⟩

/-- Runs a per-component computation for every `k < K` and fails if any
single component fails.  The source's loop aborts at the first failing
component; since component solves are independent and the loop makes no
observable writes, checking all components and then collecting is
observationally identical. -/
def collectExcept {α : Type} (dflt : α) (K : ℕ) (f : Fin K → Except Unit α) :
    Except Unit (Fin K → α) :=
  if ∀ k, ((f k).toOption).isSome = true then
    .ok (fun k => ((f k).toOption).getD dflt)
  else
    .error ()

/-- The `resp_tst_` / `labels_tst_` introspection cache written at the end of
a successful `predict` (lines 217-218). -/
structure TstCache where
  nTst : ℕ
  KTst : ℕ
  resp_tst_ : Fin nTst → Fin KTst → ℚ
  labels_tst_ : Fin nTst → ℕ

/-- The attributes a successful `fit` stores (lines 181-187).  `reg_weights_`
and `reg_precisions_` are stored by the source as `squeeze()`d numpy arrays;
here their mathematical content is kept as full tensors and the axes dropped
by the squeeze are recovered at `predict` time from the dimensions
(`squeezedNdim3` below), which determines exactly when the source's
re-indexing of the squeezed array succeeds. -/
structure FittedState where
  n_tasks_ : ℕ
  n_input_dims_ : ℕ
  K : ℕ
  nTr : ℕ
  resp_tr_ : Fin nTr → Fin K → ℚ
  labels_tr_ : Fin nTr → ℕ
  reg_weights_ : Fin n_tasks_ → Fin (n_input_dims_ + 1) → Fin K → ℚ
  reg_precisions_ : Fin n_tasks_ → Fin K → ℚ
  gmm_ : GMMFitted n_input_dims_ K

/-- A `GMMRegressor` instance: the constructor parameters (lines 112-119)
plus the optional attributes.  `is_fitted_ = none` models the attribute never
having been assigned (a fresh instance: reading it raises
`AttributeError`); `fitted = none` models the fit-produced attributes being
absent. -/
structure GMMRegressor where
  n_components : ℕ
  alpha : ℚ
  n_init : ℕ
  covariance_type : String
  verbose : ℕ
  random_state : Option Int
  is_fitted_ : Option Bool
  fitted : Option FittedState
  tst : Option TstCache

/-- Embedding of `GMMRegressor.__init__` with the source's defaults. -/
def GMMRegressor.make (n_components : ℕ := 8) (alpha : ℚ := 1)
    (n_init : ℕ := 10) (covariance_type : String := "diag") (verbose : ℕ := 0)
    (random_state : Option Int := none) : GMMRegressor :=
  { n_components, alpha, n_init, covariance_type, verbose, random_state,
    is_fitted_ := none, fitted := none, tst := none }

/-- The constructor arguments `fit` passes to `GaussianMixture`
(lines 165-167): `n_components`, `n_init` and `random_state` only.
`covariance_type` is NOT passed, so the mixture is constructed with
sklearn's default value `"full"`, whatever `self.covariance_type` holds. -/
def gmmParamsOf (m : GMMRegressor) : GMMParams :=
  { n_components := m.n_components, n_init := m.n_init,
    random_state := m.random_state, covariance_type := "full" }

/-- Result of running one of the estimator's methods: the instance after the
call (Python mutates `self` in place), the lines printed, and the outcome. -/
structure Step (α : Type) where
  model : GMMRegressor
  prints : List String
  out : PyResult α

/-- Embedding of `GMMRegressor.fit` (lines 159-188) together with the inlined
`_check_data` (lines 121-157).  `self.is_fitted_ = False` is assigned before
anything else, so every failure path leaves that flag `False`.  On a sample
count mismatch the source prints three diagnostics and evaluates
`sys.exit()` — but the module never imports `sys`, so a `NameError` is raised
and propagates to the caller.  An exception from the external mixture fit or
from any per-component ridge solve also propagates; the fitted attributes
are only (re)assigned after every component solve has succeeded. -/
def GMMRegressor.fit (gext : GmmExt) (rext : RidgeExt) (m : GMMRegressor)
    {nX dX : ℕ} (X : Mat nX dX) (y : YIn) : Step Unit :=
  if hn : nX = y.nSamples then
    match gext (gmmParamsOf m) nX dX X with
    | .error _ => ⟨{ m with is_fitted_ := some false }, [], .err .externalError⟩
    | .ok g =>
        let y2 : Mat nX y.nTasks := fun i j => y.mat (Fin.cast hn i) j
        let resp_tr : Fin nX → Fin m.n_components → ℚ := g.predictProba nX X
        match collectExcept (RegParamsK.dflt dX y.nTasks) m.n_components
            (fun k => estimate_regression_params_k rext X y2
              (fun i => resp_tr i k) m.alpha (g.weights_ k)) with
        | .error _ => ⟨{ m with is_fitted_ := some false }, [], .err .externalError⟩
        | .ok res =>
            ⟨{ m with
                is_fitted_ := some true,
                fitted := some
                  { n_tasks_ := y.nTasks, n_input_dims_ := dX,
                    K := m.n_components, nTr := nX,
                    resp_tr_ := resp_tr,
                    labels_tr_ := fun i => npArgmax m.n_components (resp_tr i),
                    reg_weights_ := fun j c k => (res k).reg_weights_k j c,
                    reg_precisions_ := fun _ k => (res k).reg_precisions_k,
                    gmm_ := ⟨gmmParamsOf m, g.weights_, g.predictProba⟩ } },
              [], .ok ()⟩
  else
    ⟨{ m with is_fitted_ := some false },
      ["Data size error. Number of samples in X and y must match:",
       "X n_samples = " ++ toString nX ++ ", y n_samples = " ++ toString y.nSamples,
       "Exiting."],
      .err .nameError⟩

/-- Number of axes of `np.squeeze` applied to an array of shape
`(a, b, c)`: axes of extent 1 are dropped. -/
def squeezedNdim3 (a b c : ℕ) : ℕ :=
  (if a = 1 then 0 else 1) + (if b = 1 then 0 else 1) + (if c = 1 then 0 else 1)

/-- The dimension-matched tail of `predict` (lines 200-220).  The stored
`reg_weights_` is the `squeeze()` of the `(t, d+1, K)` tensor; the local
`reg_weights` re-adds a leading axis when `n_tasks_ = 1` (line 202), and the
loop indexes `reg_weights[:, :, k]`, which numpy accepts exactly when the
local array has 3 axes — otherwise an `IndexError` is raised (at the
`np.newaxis` line when the stored array is 1-D, else at the first loop
iteration).  The loop runs over `range(self.n_components)` and raises
`IndexError` if that exceeds the stored component count.  All of these
errors occur before the `resp_tst_` / `labels_tst_` assignments, so a
failing call writes nothing.  (For fit-produced states `n_components` always
equals the stored `K`; the 3-axis check is placed before the loop, which is
outcome-equivalent for such states.)  On success the `(n, n_tasks_)` target
matrix is returned unsqueezed. -/
def predictFitted (m : GMMRegressor) (st : FittedState) (nX : ℕ)
    (X : Mat nX st.n_input_dims_) : Step NpVal :=
  if (if st.n_tasks_ = 1 then 1 else 0) +
      squeezedNdim3 st.n_tasks_ (st.n_input_dims_ + 1) st.K = 3 then
    if hk : m.n_components ≤ st.K then
      let resp : Fin nX → Fin st.K → ℚ := st.gmm_.predictProba nX X
      ⟨{ m with tst := some ⟨nX, st.K, resp, fun i => npArgmax st.K (resp i)⟩ },
        [],
        .ok (.mat2 nX st.n_tasks_ (fun i j =>
          ∑ k : Fin m.n_components,
            resp i (Fin.castLE hk k) *
              ∑ c, xExt X i c * st.reg_weights_ j c (Fin.castLE hk k)))⟩
    else ⟨m, [], .err .indexError⟩
  else ⟨m, [], .err .indexError⟩

/-- Embedding of `GMMRegressor.predict` (lines 190-220).  Reading
`self.is_fitted_` on a fresh instance raises `AttributeError`; when the flag
is `False` the method prints and returns `None`; on a feature-dimension
mismatch it prints and evaluates `sys.exit(0)`, which raises `NameError`
because `sys` is never imported. -/
def GMMRegressor.predict (m : GMMRegressor) {nX dX : ℕ} (X : Mat nX dX) :
    Step NpVal :=
  match m.is_fitted_ with
  | none => ⟨m, [], .err .attributeError⟩
  | some false => ⟨m, ["Model is not fitted."], .retNone⟩
  | some true =>
      match m.fitted with
      | none => ⟨m, [], .err .attributeError⟩
      | some st =>
          if hd : dX = st.n_input_dims_ then
            predictFitted m st nX (fun i j => X i (Fin.cast hd.symm j))
          else
            ⟨m, ["Incorrect dimensions for input data."], .err .nameError⟩

/-- Embedding of `GMMRegressor.score` (lines 222-225): delegates to
`predict`, then applies the external `r2_score`.  When `predict` returned
`None` (unfitted flag), `r2_score(y, None)` raises its input-validation
error; an exception from `predict` propagates. -/
def GMMRegressor.score (r2ext : YIn → NpVal → ℚ) (m : GMMRegressor)
    {nX dX : ℕ} (X : Mat nX dX) (y : YIn) : Step ℚ :=
  let p := GMMRegressor.predict m X
  match p.out with
  | .ok v => ⟨p.model, p.prints, .ok (r2ext y v)⟩
  | .retNone => ⟨p.model, p.prints, .err .valueError⟩
  | .err e => ⟨p.model, p.prints, .err e⟩
  | .exitProc => ⟨p.model, p.prints, .exitProc⟩

/-- Modelled from the spec: the per-task precision formula of section 4.2,
`n * cluster_prior_weight / sum_i(responsibility_i * e_i^2)`, where `e` is
the residual of ONE task.  Kept separate from the source-derived
`estimate_regression_params_k` so that the two can be compared. -/
def specPrecisionPerTask (n : ℕ) (weight_k : ℚ) (resp_k : Fin n → ℚ)
    (e : Fin n → ℚ) : ℚ :=
  (n : ℚ) * weight_k / ∑ i, resp_k i * e i ^ 2

/-- Modelled from the spec: the mixture-blended prediction of section 4.4,
`sum_k responsibility[:,k] * (bias_k + X . coefficients_k)` per task. -/
def specBlendTargets (st : FittedState) (nX : ℕ)
    (X : Mat nX st.n_input_dims_) : Fin nX → Fin st.n_tasks_ → ℚ :=
  fun i j =>
    ∑ k : Fin st.K,
      st.gmm_.predictProba nX X i k *
        (st.reg_weights_ j 0 k + ∑ c, X i c * st.reg_weights_ j c.succ k)

/-- Whether an outcome is a normally returned value. -/
def outIsOk {α : Type} : PyResult α → Bool
  | .ok _ => true
  | _ => false

/-- Dimensionality of the value returned by a method call, when there is
one. -/
def npOutNdim (s : Step NpVal) : Option ℕ :=
  match s.out with
  | .ok v => some v.ndim
  | _ => none

/-- Shape of the 2-D value returned by a method call, when there is one. -/
def npOutShape2 (s : Step NpVal) : Option (ℕ × ℕ) :=
  match s.out with
  | .ok (.mat2 n t _) => some (n, t)
  | _ => none

/-- The covariance type recorded on the stored fitted mixture object. -/
def fittedCovType (m : GMMRegressor) : Option String :=
  m.fitted.map fun st => st.gmm_.params.covariance_type

/-- Stored regression precision for task `tau` and component `k`, when the
model holds fitted attributes with those indices in range. -/
def precAt (m : GMMRegressor) (tau k : ℕ) : Option ℚ :=
  m.fitted.bind fun st =>
    if h : tau < st.n_tasks_ ∧ k < st.K then
      some (st.reg_precisions_ ⟨tau, h.1⟩ ⟨k, h.2⟩)
    else none

/-- Trivial external mixture fit used to evaluate the embedding on concrete
inputs: every responsibility and every mixture weight is 1. -/
def gmmExt0 : GmmExt := fun _ _ _ _ => .ok ⟨fun _ => 1, fun _ _ _ _ => 1⟩

/-- Trivial external ridge solve used on concrete inputs: all-zero
intercepts and coefficients. -/
def ridgeExt0 : RidgeExt := fun _ _ _ _ _ _ _ => .ok ⟨fun _ => 0, fun _ _ => 0⟩

/-- Trivial external scorer used on concrete inputs. -/
def r2ext0 : YIn → NpVal → ℚ := fun _ _ => 0

/-- Concrete 2-sample, 1-feature design matrix. -/
def X21 : Mat 2 1 := fun i _ => (i.val : ℚ) + 1

/-- Concrete 2-sample, 2-feature design matrix. -/
def X22 : Mat 2 2 := fun _ _ => 0

/-- Concrete 1-sample, 1-feature design matrix. -/
def X11 : Mat 1 1 := fun _ _ => 1

/-- Concrete 1-D target vector with 2 samples. -/
def y21 : YIn := .d1 2 (fun i => (i.val : ℚ))

/-- Concrete single-task target matrix with 3 samples (mismatching `X21`). -/
def y31 : YIn := .d2 3 1 (fun _ _ => 0)

/-- Concrete two-task target matrix with 1 sample: tasks 3 and 4. -/
def yT2 : YIn := .d2 1 2 (fun _ j => if j.val = 0 then 3 else 4)

/-- A fresh instance with the constructor defaults. -/
def m0 : GMMRegressor := GMMRegressor.make

/-- A fresh instance configured with 2 components. -/
def m2i : GMMRegressor := GMMRegressor.make 2 1 1 "diag" 0 none

/-- A fresh instance configured with a single component. -/
def m1i : GMMRegressor := GMMRegressor.make 1 1 1 "diag" 0 none

/-- A successfully fitted 2-component, 1-feature, 1-task model. -/
def mGood : GMMRegressor := (GMMRegressor.fit gmmExt0 ridgeExt0 m2i X21 y21).model

/-- A fresh instance after a fit that failed the sample-count check. -/
def mFail1 : GMMRegressor := (GMMRegressor.fit gmmExt0 ridgeExt0 m0 X21 y31).model

/-- The previously fitted `mGood` after a subsequent fit that failed the
sample-count check. -/
def mBadAfter : GMMRegressor := (GMMRegressor.fit gmmExt0 ridgeExt0 mGood X21 y31).model

/-- A successfully fitted single-component model. -/
def mK1 : GMMRegressor := (GMMRegressor.fit gmmExt0 ridgeExt0 m1i X21 y21).model

/-- A successfully fitted two-task model. -/
def mT2 : GMMRegressor := (GMMRegressor.fit gmmExt0 ridgeExt0 m2i X11 yT2).model

/-- An inhabitant of `FittedState` used only to make extraction total. -/
def FittedState.dummy : FittedState :=
  { n_tasks_ := 0, n_input_dims_ := 0, K := 0, nTr := 0,
    resp_tr_ := fun i => i.elim0, labels_tr_ := fun i => i.elim0,
    reg_weights_ := fun j => j.elim0, reg_precisions_ := fun j => j.elim0,
    gmm_ := ⟨⟨0, 0, none, "full"⟩, fun k => k.elim0, fun _ _ _ k => k.elim0⟩ }

/-- The fitted state stored on `mGood`. -/
def stW : FittedState :=
  match mGood.fitted with
  | some st => st
  | none => FittedState.dummy

/-- The fitted state stored on `mT2`. -/
def stT2 : FittedState :=
  match mT2.fitted with
  | some st => st
  | none => FittedState.dummy

/-- The ridge result `ridgeExt0` produces for a 1-feature, 2-task solve. -/
def s0 : RidgeResult 1 2 := ⟨fun _ => 0, fun _ _ => 0⟩

/-- A design matrix for `mGood`-shaped predictions, typed by the stored
input dimension. -/
def XW : Mat 2 stW.n_input_dims_ := fun i _ => (i.val : ℚ)

/-- Splitting the extended-design dot product into bias plus the plain dot
product. -/
lemma xExt_dot {n d : ℕ} (X : Mat n d) (i : Fin n) (w : Fin (d + 1) → ℚ) :
    ∑ c, xExt X i c * w c = w 0 + ∑ c : Fin d, X i c * w c.succ := by
  rw [Fin.sum_univ_succ]
  simp [xExt]

/-- Reindexing a sum over `Fin nc` through `Fin.castLE` when `nc` equals the
ambient bound. -/
lemma sum_castLE {nc K : ℕ} (hk : nc ≤ K) (h : nc = K) (f : Fin K → ℚ) :
    ∑ k : Fin nc, f (Fin.castLE hk k) = ∑ k : Fin K, f k := by
  subst h
  exact Finset.sum_congr rfl fun k _ => rfl

/-- The squeezed-then-reexpanded weight array has three axes whenever the
bank stores at least two components and at least one input feature. -/
lemma wndim_eq_three (t d K : ℕ) (hd : 1 ≤ d) (hK : 2 ≤ K) :
    (if t = 1 then 1 else 0) + squeezedNdim3 t (d + 1) K = 3 := by
  unfold squeezedNdim3
  have hdd : d + 1 ≠ 1 := by omega
  have hKK : K ≠ 1 := by omega
  by_cases ht : t = 1 <;> simp [ht, hdd, hKK]

/-- On a fitted model with a matching input dimension whose stored bank has
at least two components (at least as many as `n_components`) and at least one
input feature, `predict` succeeds: it caches the test responsibilities and
labels and returns the unsqueezed target matrix computed by the component
loop. -/
lemma predict_fitted_eq (m : GMMRegressor) (st : FittedState) {nX : ℕ}
    (X : Mat nX st.n_input_dims_)
    (hfl : m.is_fitted_ = some true) (hf : m.fitted = some st)
    (hk : m.n_components ≤ st.K)
    (h3 : (if st.n_tasks_ = 1 then 1 else 0) +
      squeezedNdim3 st.n_tasks_ (st.n_input_dims_ + 1) st.K = 3) :
    GMMRegressor.predict m X =
      ⟨{ m with tst := some ⟨nX, st.K, st.gmm_.predictProba nX X,
            fun i => npArgmax st.K (st.gmm_.predictProba nX X i)⟩ }, [],
        .ok (.mat2 nX st.n_tasks_ (fun i j =>
          ∑ k : Fin m.n_components,
            st.gmm_.predictProba nX X i (Fin.castLE hk k) *
              ∑ c, xExt X i c * st.reg_weights_ j c (Fin.castLE hk k)))⟩ := by
  unfold GMMRegressor.predict
  rw [hfl, hf]
  dsimp only
  rw [dif_pos rfl]
  unfold predictFitted
  rw [if_pos h3]
  rw [dif_pos hk]
  dsimp only
  rw [hfl, hf]
  rfl

/-- The component loop of `predict` computes exactly the specification's
responsibility-weighted blend of per-component affine predictions when the
loop bound `n_components` equals the stored component count. -/
lemma loop_eq_specBlend (st : FittedState) {nX : ℕ}
    (X : Mat nX st.n_input_dims_) {nc : ℕ} (hk : nc ≤ st.K) (hK : nc = st.K) :
    (fun i j =>
        ∑ k : Fin nc,
          st.gmm_.predictProba nX X i (Fin.castLE hk k) *
            ∑ c, xExt X i c * st.reg_weights_ j c (Fin.castLE hk k)) =
      specBlendTargets st nX X := by
  subst hK
  funext i j
  refine Finset.sum_congr rfl fun k _ => ?_
  rw [xExt_dot X i (fun c => st.reg_weights_ j c (Fin.castLE hk k))]
  rfl

/-- Claim C1 (counterexample).  The claim says predict/score in the Unfitted
state fail with a NotFittedError and never return a non-error value such as
None.  On the concrete instance `mFail1` (fresh instance after a fit that
failed its sample-count check — still Unfitted, no successful fit ever ran)
`predict` returns None; and on the fresh instance `m0` it raises
AttributeError, which is not a NotFittedError. -/
theorem C1_cex :
    (GMMRegressor.predict mFail1 X21).out = PyResult.retNone ∧
    (GMMRegressor.predict m0 X21).out = .err .attributeError ∧
    PyErr.attributeError ≠ PyErr.notFittedError :=
  ⟨rfl, rfl, by decide⟩

/-- Claim C1 (amended).  Before any successful fit, predict and score never
raise NotFittedError: on a fresh instance (the `is_fitted_` attribute was
never assigned) both raise AttributeError; after a failed fit attempt
(`is_fitted_` is False) predict prints a message and returns None — not an
error value — and score then fails with the error `r2_score` raises on a
None prediction input. -/
theorem C1_thm (r2ext : YIn → NpVal → ℚ) (m : GMMRegressor) {nX dX : ℕ}
    (X : Mat nX dX) (y : YIn) :
    (m.is_fitted_ = none →
      (GMMRegressor.predict m X).out = .err .attributeError ∧
      (GMMRegressor.score r2ext m X y).out = .err .attributeError) ∧
    (m.is_fitted_ = some false →
      (GMMRegressor.predict m X).out = .retNone ∧
      (GMMRegressor.predict m X).prints ≠ [] ∧
      (GMMRegressor.score r2ext m X y).out = .err .valueError) := by
  constructor
  · intro h
    have hp : GMMRegressor.predict m X = ⟨m, [], .err .attributeError⟩ := by
      unfold GMMRegressor.predict
      rw [h]
    refine ⟨by rw [hp], ?_⟩
    unfold GMMRegressor.score
    rw [hp]
  · intro h
    have hp : GMMRegressor.predict m X
        = ⟨m, ["Model is not fitted."], .retNone⟩ := by
      unfold GMMRegressor.predict
      rw [h]
    refine ⟨by rw [hp], by rw [hp]; simp, ?_⟩
    unfold GMMRegressor.score
    rw [hp]

/-- Claim C1 (witness): the amended statement evaluated on the fresh
instance `m0` and on the failed-fit instance `mFail1`. -/
theorem C1_wit :
    m0.is_fitted_ = none ∧ mFail1.is_fitted_ = some false ∧
    (GMMRegressor.predict m0 X21).out = .err .attributeError ∧
    (GMMRegressor.predict mFail1 X21).out = .retNone ∧
    (GMMRegressor.score r2ext0 mFail1 X21 y21).out = .err .valueError :=
  ⟨rfl, rfl, ((C1_thm r2ext0 m0 X21 y21).1 rfl).1,
    ((C1_thm r2ext0 mFail1 X21 y21).2 rfl).1,
    ((C1_thm r2ext0 mFail1 X21 y21).2 rfl).2.2⟩

/-- Claim C2 (counterexample).  The claim says a sample-count mismatch makes
`fit` fail with a ShapeMismatchError.  On the concrete mismatched pair
(`X21` has 2 samples, `y31` has 3) `fit` raises NameError instead: the
source prints its diagnostics and then evaluates `sys.exit()`, but `sys` was
never imported. -/
theorem C2_cex :
    (GMMRegressor.fit gmmExt0 ridgeExt0 m0 X21 y31).out = .err .nameError ∧
    PyErr.nameError ≠ PyErr.shapeMismatchError :=
  ⟨rfl, by decide⟩

/-- Claim C2 (amended).  For every X and y with differing sample counts,
`fit` prints diagnostics and then fails with a NameError raised at the
`sys.exit()` call (`sys` is unimported); the error surfaces to the caller as
an exception — the process is in fact never exited and `fit` never continues
past the check — but it is not a ShapeMismatchError. -/
theorem C2_thm (gext : GmmExt) (rext : RidgeExt) (m : GMMRegressor)
    {nX dX : ℕ} (X : Mat nX dX) (y : YIn) (h : nX ≠ y.nSamples) :
    (GMMRegressor.fit gext rext m X y).out = .err .nameError ∧
    (GMMRegressor.fit gext rext m X y).prints ≠ [] ∧
    (GMMRegressor.fit gext rext m X y).model
      = { m with is_fitted_ := some false } := by
  unfold GMMRegressor.fit
  rw [dif_neg h]
  exact ⟨rfl, by simp, rfl⟩

/-- Claim C2 (witness): the amended statement evaluated on the concrete
mismatched pair. -/
theorem C2_wit :
    (2 : ℕ) ≠ y31.nSamples ∧
    (GMMRegressor.fit gmmExt0 ridgeExt0 m0 X21 y31).out = .err .nameError ∧
    (GMMRegressor.fit gmmExt0 ridgeExt0 m0 X21 y31).prints ≠ [] :=
  ⟨by decide, (C2_thm gmmExt0 ridgeExt0 m0 X21 y31 (by decide)).1,
    (C2_thm gmmExt0 ridgeExt0 m0 X21 y31 (by decide)).2.1⟩

/-- Claim C4 (counterexample).  The claim says predict on every fitted model
with a valid input returns the blended target matrix.  On the fit-produced
single-component model `mK1` (K = 1) predict instead raises IndexError: the
stored weight tensor was squeezed down to one axis and the re-indexing
fails. -/
theorem C4_cex :
    mK1.is_fitted_ = some true ∧
    (GMMRegressor.predict mK1 X21).out = .err .indexError ∧
    outIsOk (GMMRegressor.predict mK1 X21).out = false :=
  ⟨rfl, rfl, rfl⟩

/-- Claim C4 (amended).  On a fitted model whose stored bank has at least
two components (with the `fit`-established invariant that `n_components`
equals the stored component count) and at least one input feature, predict
on a dimension-matching X returns the n-by-t matrix whose entries are the
responsibility-weighted sums of the per-component affine predictions
`responsibility[:,k] * (bias_k + X . coefficients_k)`.  For K = 1 the call
raises IndexError instead (see the counterexample). -/
theorem C4_thm (m : GMMRegressor) (st : FittedState) {nX : ℕ}
    (X : Mat nX st.n_input_dims_)
    (hfl : m.is_fitted_ = some true) (hf : m.fitted = some st)
    (hK : m.n_components = st.K) (hK2 : 2 ≤ st.K)
    (hd : 1 ≤ st.n_input_dims_) :
    (GMMRegressor.predict m X).out
      = .ok (.mat2 nX st.n_tasks_ (specBlendTargets st nX X)) := by
  have hk : m.n_components ≤ st.K := hK ▸ Nat.le_refl _
  rw [predict_fitted_eq m st X hfl hf hk
    (wndim_eq_three st.n_tasks_ st.n_input_dims_ st.K hd hK2)]
  rw [loop_eq_specBlend st X hk hK]

/-- Claim C4 (witness): the amended statement evaluated on the concrete
fitted model `mGood`. -/
theorem C4_wit :
    mGood.is_fitted_ = some true ∧ mGood.fitted = some stW ∧
    mGood.n_components = stW.K ∧ 2 ≤ stW.K ∧ 1 ≤ stW.n_input_dims_ ∧
    (GMMRegressor.predict mGood XW).out
      = .ok (.mat2 2 stW.n_tasks_ (specBlendTargets stW 2 XW)) :=
  ⟨rfl, rfl, rfl, Nat.le.refl, Nat.le.refl,
    C4_thm mGood stW XW rfl rfl rfl Nat.le.refl Nat.le.refl⟩

/-- Claim C6 (code bug).  The configured covariance type is never passed to
the density model: `fit` constructs the GaussianMixture from `n_components`,
`n_init` and `random_state` only, so the mixture is fitted with sklearn's
default `"full"` even though the instance was configured (and the class
docstring documents) `"diag"`. -/
theorem C6_thm :
    m2i.covariance_type = "diag" ∧
    gmmParamsOf m2i
      = { n_components := 2, n_init := 1, random_state := none,
          covariance_type := "full" } ∧
    fittedCovType (GMMRegressor.fit gmmExt0 ridgeExt0 m2i X21 y21).model
      = some "full" ∧
    ("full" : String) ≠ "diag" :=
  ⟨rfl, rfl, rfl, by decide⟩

/-- Claim C7 (counterexample).  The claim says predict returns a length-n
vector when t = 1.  On the concrete single-task fitted model `mGood`
predict returns a 2-D (n, 1) array — numpy dimensionality 2, not 1. -/
theorem C7_cex :
    stW.n_tasks_ = 1 ∧
    npOutNdim (GMMRegressor.predict mGood X21) = some 2 ∧
    (2 : ℕ) ≠ 1 :=
  ⟨rfl, rfl, by decide⟩

/-- Claim C7 (amended).  On a fitted model (fit-established invariants, at
least two stored components, at least one feature) predict always returns a
2-D n-by-t array — also when t = 1, where the result is an n-by-1 matrix:
no squeeze is applied to the returned targets. -/
theorem C7_thm (m : GMMRegressor) (st : FittedState) {nX : ℕ}
    (X : Mat nX st.n_input_dims_)
    (hfl : m.is_fitted_ = some true) (hf : m.fitted = some st)
    (hK : m.n_components = st.K) (hK2 : 2 ≤ st.K)
    (hd : 1 ≤ st.n_input_dims_) :
    npOutNdim (GMMRegressor.predict m X) = some 2 ∧
    npOutShape2 (GMMRegressor.predict m X) = some (nX, st.n_tasks_) := by
  have hk : m.n_components ≤ st.K := hK ▸ Nat.le_refl _
  unfold npOutNdim npOutShape2
  rw [predict_fitted_eq m st X hfl hf hk
    (wndim_eq_three st.n_tasks_ st.n_input_dims_ st.K hd hK2)]
  exact ⟨rfl, rfl⟩

/-- Claim C7 (witness): the amended statement evaluated on the concrete
single-task fitted model `mGood`, whose stored task count is 1. -/
theorem C7_wit :
    mGood.is_fitted_ = some true ∧ mGood.fitted = some stW ∧
    mGood.n_components = stW.K ∧ 2 ≤ stW.K ∧ 1 ≤ stW.n_input_dims_ ∧
    stW.n_tasks_ = 1 ∧
    npOutNdim (GMMRegressor.predict mGood XW) = some 2 ∧
    npOutShape2 (GMMRegressor.predict mGood XW) = some (2, stW.n_tasks_) :=
  ⟨rfl, rfl, rfl, Nat.le.refl, Nat.le.refl, rfl,
    (C7_thm mGood stW XW rfl rfl rfl Nat.le.refl Nat.le.refl).1,
    (C7_thm mGood stW XW rfl rfl rfl Nat.le.refl Nat.le.refl).2⟩

/-- Claim C8 (counterexample).  The claim says predict with a wrong feature
dimension fails with a ShapeMismatchError.  On the fitted 1-feature model
`mGood` and the 2-feature input `X22` predict raises NameError instead (the
unimported `sys` at the `sys.exit(0)` call). -/
theorem C8_cex :
    (GMMRegressor.predict mGood X22).out = .err .nameError ∧
    PyErr.nameError ≠ PyErr.shapeMismatchError :=
  ⟨rfl, by decide⟩

/-- Claim C8 (amended).  On every fitted model, predict with a mismatched
feature dimension prints a message and fails with a NameError raised at the
`sys.exit(0)` call (`sys` is unimported): the error surfaces to the caller
and the process is never terminated, but it is not a ShapeMismatchError;
the model is left unchanged. -/
theorem C8_thm (m : GMMRegressor) (st : FittedState) {nX dX : ℕ}
    (X : Mat nX dX)
    (hfl : m.is_fitted_ = some true) (hf : m.fitted = some st)
    (hd : dX ≠ st.n_input_dims_) :
    (GMMRegressor.predict m X).out = .err .nameError ∧
    (GMMRegressor.predict m X).prints ≠ [] ∧
    (GMMRegressor.predict m X).model = m := by
  have hp : GMMRegressor.predict m X
      = ⟨m, ["Incorrect dimensions for input data."], .err .nameError⟩ := by
    unfold GMMRegressor.predict
    rw [hfl, hf]
    dsimp only
    rw [dif_neg hd]
  rw [hp]
  exact ⟨rfl, by simp, rfl⟩

/-- Claim C8 (witness): the amended statement evaluated on the fitted
1-feature model `mGood` and the 2-feature input `X22`. -/
theorem C8_wit :
    mGood.is_fitted_ = some true ∧ mGood.fitted = some stW ∧
    (2 : ℕ) ≠ stW.n_input_dims_ ∧
    (GMMRegressor.predict mGood X22).out = .err .nameError :=
  ⟨rfl, rfl, by decide,
    (C8_thm mGood stW X22 rfl rfl (by decide)).1⟩

/-- Every `predict` call either leaves the instance untouched or only
installs the test-responsibility cache. -/
lemma predict_model_frame (m : GMMRegressor) {nX dX : ℕ} (X : Mat nX dX) :
    (GMMRegressor.predict m X).model = m ∨
    ∃ c, (GMMRegressor.predict m X).model = { m with tst := some c } := by
  cases hfl : m.is_fitted_ with
  | none =>
      left
      unfold GMMRegressor.predict
      rw [hfl]
  | some b =>
    cases b with
    | false =>
        left
        unfold GMMRegressor.predict
        rw [hfl]
    | true =>
      cases hf : m.fitted with
      | none =>
          left
          unfold GMMRegressor.predict
          rw [hfl, hf]
      | some st =>
        by_cases hdx : dX = st.n_input_dims_
        · subst hdx
          by_cases h3 : (if st.n_tasks_ = 1 then 1 else 0) +
              squeezedNdim3 st.n_tasks_ (st.n_input_dims_ + 1) st.K = 3
          · by_cases hk : m.n_components ≤ st.K
            · right
              refine ⟨⟨nX, st.K, st.gmm_.predictProba nX X,
                fun i => npArgmax st.K (st.gmm_.predictProba nX X i)⟩, ?_⟩
              rw [predict_fitted_eq m st X hfl hf hk h3, hfl, hf]
            · left
              unfold GMMRegressor.predict
              rw [hfl, hf]
              dsimp only
              rw [dif_pos rfl]
              unfold predictFitted
              rw [if_pos h3, dif_neg hk]
          · left
            unfold GMMRegressor.predict
            rw [hfl, hf]
            dsimp only
            rw [dif_pos rfl]
            unfold predictFitted
            rw [if_neg h3]
        · left
          unfold GMMRegressor.predict
          rw [hfl, hf]
          dsimp only
          rw [dif_neg hdx]

/-- Claim C3 (counterexample).  The claim says a failed re-fit leaves the
previously fitted model usable by predict.  Concretely: `mGood` is fitted
and predict succeeds on it; re-fitting it with mismatched data fails
(NameError); afterwards predict no longer returns predictions — it returns
None, because the failed fit reset `is_fitted_` to False first. -/
theorem C3_cex :
    outIsOk (GMMRegressor.predict mGood X21).out = true ∧
    (GMMRegressor.fit gmmExt0 ridgeExt0 mGood X21 y31).out = .err .nameError ∧
    mBadAfter.fitted = mGood.fitted ∧
    (GMMRegressor.predict mBadAfter X21).out = .retNone :=
  ⟨rfl, rfl, rfl, rfl⟩

/-- Claim C3 (amended).  A failed fit (at the data check, the density-model
fit, or any per-component solve) always leaves `is_fitted_ = False` while
keeping the old fitted attributes stored, so the previous model is NOT
usable by predict afterwards: predict returns None.  The all-or-nothing half
of the claim does hold — the fitted attributes are replaced only after every
step of fit succeeds, so no partially-populated state is ever reachable by
predict. -/
theorem C3_thm (gext : GmmExt) (rext : RidgeExt) (m : GMMRegressor)
    {nX dX : ℕ} (X : Mat nX dX) (y : YIn) {nP dP : ℕ} (XP : Mat nP dP)
    (h : ∃ e, (GMMRegressor.fit gext rext m X y).out = .err e) :
    (GMMRegressor.fit gext rext m X y).model.is_fitted_ = some false ∧
    (GMMRegressor.fit gext rext m X y).model.fitted = m.fitted ∧
    (GMMRegressor.predict (GMMRegressor.fit gext rext m X y).model XP).out
      = .retNone := by
  obtain ⟨e, he⟩ := h
  revert he
  unfold GMMRegressor.fit
  split
  · split
    · intro _
      exact ⟨rfl, rfl, rfl⟩
    · dsimp only
      split
      · intro _
        exact ⟨rfl, rfl, rfl⟩
      · intro he
        simp at he
  · intro _
    exact ⟨rfl, rfl, rfl⟩

/-- Claim C3 (witness): the amended statement evaluated on the fitted model
`mGood` re-fitted with mismatched data. -/
theorem C3_wit :
    (∃ e, (GMMRegressor.fit gmmExt0 ridgeExt0 mGood X21 y31).out = .err e) ∧
    (GMMRegressor.fit gmmExt0 ridgeExt0 mGood X21 y31).model.is_fitted_
      = some false ∧
    (GMMRegressor.predict
        (GMMRegressor.fit gmmExt0 ridgeExt0 mGood X21 y31).model X21).out
      = .retNone :=
  ⟨⟨.nameError, rfl⟩,
    (C3_thm gmmExt0 ridgeExt0 mGood X21 y31 X21 ⟨.nameError, rfl⟩).1,
    (C3_thm gmmExt0 ridgeExt0 mGood X21 y31 X21 ⟨.nameError, rfl⟩).2.2⟩

/-- Claim C5 (counterexample).  On the fit-produced two-task model `mT2`
(one sample, prior weight 1, responsibility 1, zero ridge solution, targets
3 and 4, hence task-0 residual 3 and task-1 residual 4) the claimed per-task
precision for task 0 and component 0 is `1 * 1 / (1 * 3^2) = 1/9`, but the
stored precision is `1/25`: the denominator also absorbed task 1's squared
residual 16. -/
theorem C5_cex :
    precAt mT2 0 0 = some (1/25) ∧
    specPrecisionPerTask 1 1 (fun _ => 1) (fun _ => 3) = 1/9 ∧
    stT2.gmm_.weights_ ⟨0, by decide⟩ = 1 ∧
    stT2.resp_tr_ ⟨0, by decide⟩ ⟨0, by decide⟩ = 1 ∧
    yT2.mat ⟨0, by decide⟩ ⟨0, by decide⟩ = 3 ∧
    (1/25 : ℚ) ≠ 1/9 := by
  refine ⟨?_, ?_, rfl, rfl, rfl, by norm_num⟩
  · simp [precAt, mT2, m2i, GMMRegressor.fit, GMMRegressor.make, gmmExt0,
      ridgeExt0, collectExcept, estimate_regression_params_k, RegParamsK.dflt,
      ridgeW, xExt, X11, yT2, YIn.mat, YIn.nTasks, YIn.nSamples, gmmParamsOf,
      weightEps, Except.toOption, Option.isSome, Option.getD,
      Fin.sum_univ_succ]
    norm_num
  · simp [specPrecisionPerTask]
    norm_num

/-- Claim C5 (amended).  After each component's ridge solve the residual is
computed over every sample (not only the weighted subset); but the precision
denominator sums the weighted squared residuals over all samples AND all
tasks, producing a single scalar
`n * weight_k / sum_i resp_i * sum_tau e_(i,tau)^2` per component that `fit`
stores identically for every task.  It agrees with the claimed per-task
formula only when t = 1. -/
theorem C5_thm :
    (∀ (rext : RidgeExt) {n d t : ℕ} (X : Mat n d) (y : Mat n t)
        (resp_k : Fin n → ℚ) (alpha weight_k : ℚ) (s : RidgeResult d t),
      rext n d t alpha X y (fun i => resp_k i + weightEps) = .ok s →
      estimate_regression_params_k rext X y resp_k alpha weight_k =
        .ok ⟨ridgeW s,
          (n : ℚ) * weight_k /
            ∑ i, resp_k i *
              ∑ j, (y i j - ∑ c, xExt X i c * ridgeW s j c) ^ 2⟩) ∧
    (∀ (gext : GmmExt) (rext : RidgeExt) (m : GMMRegressor) {nX dX : ℕ}
        (X : Mat nX dX) (y : YIn) (st : FittedState),
      (GMMRegressor.fit gext rext m X y).out = .ok () →
      (GMMRegressor.fit gext rext m X y).model.fitted = some st →
      ∀ j j2 k, st.reg_precisions_ j k = st.reg_precisions_ j2 k) := by
  constructor
  · intro rext n d t X y resp_k alpha weight_k s hs
    unfold estimate_regression_params_k
    rw [hs]
    dsimp only
    congr 2
    simp [Finset.mul_sum]
  · intro gext rext m nX dX X y st
    unfold GMMRegressor.fit
    split
    · split
      · intro hok
        simp at hok
      · dsimp only
        split
        · intro hok
          simp at hok
        · intro _ hst
          dsimp only at hst
          rw [Option.some.injEq] at hst
          subst hst
          intro j j2 k
          rfl
    · intro hok
      simp at hok

/-- Claim C5 (witness): both halves of the amended statement evaluated on
the two-task fixture (`ridgeExt0` solve, `mT2` fit). -/
theorem C5_wit :
    (ridgeExt0 1 1 2 1 X11 (fun i j => yT2.mat (Fin.cast (by decide) i) j)
        (fun i => (fun _ => (1 : ℚ)) i + weightEps) = .ok s0) ∧
    (estimate_regression_params_k ridgeExt0 X11
        (fun i j => yT2.mat (Fin.cast (by decide) i) j) (fun _ => 1) 1 1 =
      .ok ⟨ridgeW s0,
        ((1 : ℕ) : ℚ) * 1 /
          ∑ i, (fun _ => (1 : ℚ)) i *
            ∑ j, ((fun i j => yT2.mat (Fin.cast (by decide) i) j) i j -
              ∑ c, xExt X11 i c * ridgeW s0 j c) ^ 2⟩) ∧
    ((GMMRegressor.fit gmmExt0 ridgeExt0 m2i X11 yT2).out = .ok ()) ∧
    ((GMMRegressor.fit gmmExt0 ridgeExt0 m2i X11 yT2).model.fitted
      = some stT2) ∧
    stT2.reg_precisions_ ⟨0, by decide⟩ ⟨0, by decide⟩
      = stT2.reg_precisions_ ⟨1, by decide⟩ ⟨0, by decide⟩ :=
  ⟨rfl,
    C5_thm.1 ridgeExt0 X11 (fun i j => yT2.mat (Fin.cast (by decide) i) j)
      (fun _ => 1) 1 1 s0 rfl,
    rfl, rfl,
    C5_thm.2 gmmExt0 ridgeExt0 m2i X11 yT2 stT2 rfl rfl
      ⟨0, by decide⟩ ⟨1, by decide⟩ ⟨0, by decide⟩⟩

/-- Claim C9 (confirmed).  predict is idempotent: running predict again on
the instance returned by a first predict with the same input yields the
identical outcome, prints and final instance — predict never mutates any
state it reads (it only rewrites the introspection cache with the same
values). -/
theorem C9_thm (m : GMMRegressor) {nX dX : ℕ} (X : Mat nX dX) :
    GMMRegressor.predict (GMMRegressor.predict m X).model X
      = GMMRegressor.predict m X := by
  cases hfl : m.is_fitted_ with
  | none =>
      have hp : GMMRegressor.predict m X = ⟨m, [], .err .attributeError⟩ := by
        unfold GMMRegressor.predict
        rw [hfl]
      rw [hp]
      show GMMRegressor.predict m X = _
      exact hp
  | some b =>
      cases b with
      | false =>
          have hp : GMMRegressor.predict m X
              = ⟨m, ["Model is not fitted."], .retNone⟩ := by
            unfold GMMRegressor.predict
            rw [hfl]
          rw [hp]
          show GMMRegressor.predict m X = _
          exact hp
      | true =>
          cases hf : m.fitted with
          | none =>
              have hp : GMMRegressor.predict m X
                  = ⟨m, [], .err .attributeError⟩ := by
                unfold GMMRegressor.predict
                rw [hfl, hf]
              rw [hp]
              show GMMRegressor.predict m X = _
              exact hp
          | some st =>
              by_cases hdx : dX = st.n_input_dims_
              · subst hdx
                by_cases h3 : (if st.n_tasks_ = 1 then 1 else 0) +
                    squeezedNdim3 st.n_tasks_ (st.n_input_dims_ + 1) st.K = 3
                · by_cases hk : m.n_components ≤ st.K
                  · have hp := predict_fitted_eq m st X hfl hf hk h3
                    rw [hp]
                    dsimp only
                    exact (predict_fitted_eq
                      { m with tst := some ⟨nX, st.K,
                          st.gmm_.predictProba nX X,
                          fun i => npArgmax st.K
                            (st.gmm_.predictProba nX X i)⟩ }
                      st X hfl hf hk h3).trans rfl
                  · have hp : GMMRegressor.predict m X
                        = ⟨m, [], .err .indexError⟩ := by
                      unfold GMMRegressor.predict
                      rw [hfl, hf]
                      dsimp only
                      rw [dif_pos rfl]
                      unfold predictFitted
                      rw [if_pos h3, dif_neg hk]
                    rw [hp]
                    show GMMRegressor.predict m X = _
                    exact hp
                · have hp : GMMRegressor.predict m X
                      = ⟨m, [], .err .indexError⟩ := by
                    unfold GMMRegressor.predict
                    rw [hfl, hf]
                    dsimp only
                    rw [dif_pos rfl]
                    unfold predictFitted
                    rw [if_neg h3]
                  rw [hp]
                  show GMMRegressor.predict m X = _
                  exact hp
              · have hp : GMMRegressor.predict m X
                    = ⟨m, ["Incorrect dimensions for input data."],
                        .err .nameError⟩ := by
                  unfold GMMRegressor.predict
                  rw [hfl, hf]
                  dsimp only
                  rw [dif_neg hdx]
                rw [hp]
                show GMMRegressor.predict m X = _
                exact hp

/-- Claim C10 (confirmed).  predict writes at most the two introspection
cache fields (`resp_tst_`/`labels_tst_`, grouped in `tst`): every field that
determines predictions — the constructor hyperparameters, `is_fitted_` and
all fit-produced attributes — is left unchanged by every predict call; and
on a fitted model with matching feature dimension (fit invariants, at least
two components, at least one feature) the cache is indeed written. -/
theorem C10_thm :
    (∀ (m : GMMRegressor) {nX dX : ℕ} (X : Mat nX dX),
      (GMMRegressor.predict m X).model.is_fitted_ = m.is_fitted_ ∧
      (GMMRegressor.predict m X).model.fitted = m.fitted ∧
      (GMMRegressor.predict m X).model.n_components = m.n_components ∧
      (GMMRegressor.predict m X).model.alpha = m.alpha ∧
      (GMMRegressor.predict m X).model.n_init = m.n_init ∧
      (GMMRegressor.predict m X).model.covariance_type = m.covariance_type ∧
      (GMMRegressor.predict m X).model.random_state = m.random_state) ∧
    (∀ (m : GMMRegressor) (st : FittedState) {nX : ℕ}
        (X : Mat nX st.n_input_dims_),
      m.is_fitted_ = some true → m.fitted = some st →
      m.n_components = st.K → 2 ≤ st.K → 1 ≤ st.n_input_dims_ →
      ((GMMRegressor.predict m X).model.tst).isSome = true) := by
  constructor
  · intro m nX dX X
    rcases predict_model_frame m X with h | ⟨c, h⟩ <;> rw [h] <;>
      exact ⟨rfl, rfl, rfl, rfl, rfl, rfl, rfl⟩
  · intro m st nX X hfl hf hK hK2 hd
    have hk : m.n_components ≤ st.K := hK ▸ Nat.le_refl _
    rw [predict_fitted_eq m st X hfl hf hk
      (wndim_eq_three st.n_tasks_ st.n_input_dims_ st.K hd hK2)]
    rfl

/-- Claim C10 (witness): the cache-write half evaluated on the concrete
fitted model `mGood`, together with the frame half at the same input. -/
theorem C10_wit :
    mGood.is_fitted_ = some true ∧ mGood.fitted = some stW ∧
    mGood.n_components = stW.K ∧ 2 ≤ stW.K ∧ 1 ≤ stW.n_input_dims_ ∧
    ((GMMRegressor.predict mGood XW).model.tst).isSome = true ∧
    (GMMRegressor.predict mGood XW).model.fitted = mGood.fitted :=
  ⟨rfl, rfl, rfl, Nat.le.refl, Nat.le.refl,
    C10_thm.2 mGood stW XW rfl rfl rfl Nat.le.refl Nat.le.refl,
    (C10_thm.1 mGood XW).2.1⟩
